import Mathlib

/-!
Shallow embedding of src/src-tauri/src/main.rs (the Ledgerhound bootstrap).

The source is a ten-line Tauri entry point:

  fn main() {
    tauri::Builder::default()
      .plugin(tauri_plugin_log::Builder::default().build())
      .run(tauri::generate_context!())
      .expect("error while running tauri application");
  }

The external framework (tauri, tauri_plugin_log) is modelled by its visible
interface: a builder accumulating plugin registrations, a log-plugin builder,
a build-time generated context, and a blocking run call whose result is
supplied by the host environment.  The behaviour of the host is a parameter
(`tauri.HostEnv`); the program itself is the function `main`, instrumented to
also return the ordered list of framework calls it performs.
-/

namespace Ledgerhound

/-- Settings carried by the external log-plugin builder.  This code never
inspects or modifies them; the payload stands in for whatever configuration
the plugin holds, so that "default settings" is a nontrivial statement. -/
structure LogSettings where
  data : Nat
  deriving DecidableEq, Repr

/-- The settings produced by tauri_plugin_log::Builder::default(). -/
def LogSettings.default : LogSettings := ⟨0⟩

/-- A plugin value that can be registered with the application builder.  The
source registers only the log plugin; the second constructor represents any
other plugin a framework user could register, so that "no other plugin is
registered" is a nontrivial statement. -/
inductive Plugin where
  | log (settings : LogSettings)
  | other (name : String)
  deriving DecidableEq, Repr

namespace tauri_plugin_log

/-- Embeds tauri_plugin_log::Builder: the log-plugin builder. -/
structure Builder where
  settings : LogSettings
  deriving DecidableEq, Repr

/-- Embeds tauri_plugin_log::Builder::default(). -/
def Builder.default : Builder := ⟨LogSettings.default⟩

/-- Embeds tauri_plugin_log::Builder::build(): produces the log plugin
carrying the builder's settings. -/
def Builder.build (b : Builder) : Plugin := Plugin.log b.settings

end tauri_plugin_log

namespace tauri

/-- The runtime context produced at build time by tauri::generate_context!.
Its payload stands for the window/permission/asset metadata, which this code
never inspects. -/
structure Context where
  data : Nat
  deriving DecidableEq, Repr

/-- An error value returned by the framework's run loop; `debugRepr` is the
Debug rendering that Result::expect appends to its panic message. -/
structure Error where
  debugRepr : String
  deriving DecidableEq, Repr

/-- Embeds tauri::Builder: the application builder, accumulating the list of
registered plugins in registration order. -/
structure Builder where
  plugins : List Plugin
  deriving DecidableEq, Repr

/-- Embeds tauri::Builder::default(): a builder with no plugins. -/
def Builder.default : Builder := ⟨[]⟩

/-- Embeds tauri::Builder::plugin: appends one plugin registration. -/
def Builder.plugin (b : Builder) (p : Plugin) : Builder := ⟨b.plugins ++ [p]⟩

/-- The host environment: what the framework's blocking run loop does for a
given builder and context.  Ok means the event loop started and later exited
normally; an error means the run loop failed to start. -/
def HostEnv : Type := Builder → Context → Except Error Unit

/-- Embeds tauri::Builder::run: hands the configured builder and the context
to the host environment and returns its result. -/
def Builder.run (b : Builder) (ctx : Context) (env : HostEnv) : Except Error Unit :=
  env b ctx

/-- Embeds tauri::generate_context!(): the build-time generated context,
fixed at build time. -/
def generate_context : Context := ⟨0⟩

end tauri

/-- The observable result of the process at this layer: either main returned
normally and the process exited with the given status, or the process aborted
by panic with the given diagnostic message. -/
inductive Outcome where
  | exited (code : Nat)
  | panicked (msg : String)
  deriving DecidableEq, Repr

/-- Embeds Result::expect in the tail position of main: on Ok the unit value
flows to main's return and the process exits with status 0; on Err the
process panics with "msg ++ ": " ++ Debug rendering of the error". -/
def expect (r : Except tauri.Error Unit) (msg : String) : Outcome :=
  match r with
  | Except.ok _ => Outcome.exited 0
  | Except.error e => Outcome.panicked (msg ++ ": " ++ e.debugRepr)

/-- The exit status of the process for a given outcome; a Rust panic reaching
the top of main terminates the process with status 101. -/
def Outcome.exitCode : Outcome → Nat
  | Outcome.exited c => c
  | Outcome.panicked _ => 101

/-- The diagnostic the panic handler writes to the standard error stream, if
any; a normal exit writes none at this layer. -/
def Outcome.diagnostic : Outcome → Option String
  | Outcome.exited _ => none
  | Outcome.panicked m => some m

/-- One observable framework call performed by the startup routine. -/
inductive Event where
  | builderDefault
  | pluginAttach (p : Plugin)
  | contextGen
  | runInvoke (b : tauri.Builder) (ctx : tauri.Context)
  deriving DecidableEq, Repr

/-- Discriminates the run-invocation event. -/
def Event.isRunInvoke : Event → Bool
  | Event.runInvoke _ _ => true
  | _ => false

/-- Discriminates plugin-registration events. -/
def Event.isPluginAttach : Event → Bool
  | Event.pluginAttach _ => true
  | _ => false

/-- The plugins registered along a trace, in registration order. -/
def registeredPlugins (t : List Event) : List Plugin :=
  t.filterMap (fun e =>
    match e with
    | Event.pluginAttach p => some p
    | _ => none)

/-- Shallow embedding of fn main.  `args` is the process argument vector,
which the source never reads; `env` is the host environment.  The result is
the ordered trace of framework calls performed, paired with the observable
process outcome.  Each let-step mirrors one call of the source in order:
Builder::default, plugin(log builder default build), generate_context!, run,
and the trailing expect. -/
def main (args : List String) (env : tauri.HostEnv) : List Event × Outcome :=
  let b0 := tauri.Builder.default
  let p := (tauri_plugin_log.Builder.default).build
  let b1 := b0.plugin p
  let ctx := tauri.generate_context
  let r := b1.run ctx env
  ([Event.builderDefault, Event.pluginAttach p, Event.contextGen, Event.runInvoke b1 ctx],
   expect r "error while running tauri application")

/-- The trace of framework calls performed by main. -/
def mainTrace (args : List String) (env : tauri.HostEnv) : List Event :=
  (main args env).1

/-- The observable process outcome of main. -/
def mainOutcome (args : List String) (env : tauri.HostEnv) : Outcome :=
  (main args env).2

/-- The fully configured builder that main hands to the run call. -/
def finalBuilder : tauri.Builder :=
  tauri.Builder.plugin tauri.Builder.default
    (tauri_plugin_log.Builder.build tauri_plugin_log.Builder.default)

/-- A host environment in which the run loop fails to start. -/
def envErr : tauri.HostEnv := fun _ _ => Except.error ⟨"boom"⟩

/-- A host environment in which the run loop starts and later exits
normally. -/
def envOk : tauri.HostEnv := fun _ _ => Except.ok ()

/-- Helper: the outcome of main is the expect of the host's run result on
the fully configured builder and the generated context. -/
theorem mainOutcome_eq (args : List String) (env : tauri.HostEnv) :
    mainOutcome args env =
      expect (env finalBuilder tauri.generate_context)
        "error while running tauri application" := rfl

/-- Helper: on an error result, expect panics with the fixed text, a colon
separator, and the Debug rendering of the error. -/
theorem expect_error_msg (e : tauri.Error) :
    expect (Except.error e) "error while running tauri application" =
      Outcome.panicked ("error while running tauri application: " ++ e.debugRepr) := by
  have h : ("error while running tauri application" ++ ": " : String) =
      "error while running tauri application: " := rfl
  show Outcome.panicked ("error while running tauri application" ++ ": " ++ e.debugRepr) = _
  rw [h]

/-- C1: in every execution, the startup routine registers exactly one plugin,
the log plugin constructed with its default settings; the builder handed to
the run call carries exactly that plugin list, so no other plugin is
registered and no side-effecting registration besides the logging sink
occurs at this layer. -/
theorem main_registers_only_log_plugin (args : List String) (env : tauri.HostEnv) :
    registeredPlugins (mainTrace args env) = [Plugin.log LogSettings.default] ∧
    finalBuilder.plugins = [Plugin.log LogSettings.default] := by
  exact ⟨rfl, rfl⟩

/-- C2: every execution of the startup routine performs exactly these four
framework calls in this order, each exactly once: default builder
construction, log-plugin attachment, context generation, run invocation. -/
theorem main_step_sequence (args : List String) (env : tauri.HostEnv) :
    mainTrace args env =
      [Event.builderDefault,
       Event.pluginAttach (Plugin.log LogSettings.default),
       Event.contextGen,
       Event.runInvoke finalBuilder tauri.generate_context] := by
  exact rfl

/-- C3: the run call is the startup routine's only error path: the process
panics (aborts with a fatal diagnostic) precisely when the host environment's
run result is an error; no other operation of the routine surfaces an
error. -/
theorem main_single_error_path (args : List String) (env : tauri.HostEnv) :
    (∃ m, mainOutcome args env = Outcome.panicked m) ↔
    (∃ e, env finalBuilder tauri.generate_context = Except.error e) := by
  rw [mainOutcome_eq]
  cases h : env finalBuilder tauri.generate_context with
  | ok u => simp [expect]
  | error e => simp [expect]

/-- Witness for C3: in a host environment whose run loop fails to start, the
process indeed aborts with a fatal diagnostic. -/
theorem main_single_error_path_witness :
    ∃ m, mainOutcome [] envErr = Outcome.panicked m :=
  (main_single_error_path [] envErr).mpr ⟨⟨"boom"⟩, rfl⟩

/-- C4: whenever the run loop cannot initialize (the host's run result is an
error), the process terminates with a non-zero exit status and a diagnostic
message written to the standard error stream. -/
theorem main_failure_nonzero_exit (args : List String) (env : tauri.HostEnv)
    (e : tauri.Error)
    (h : env finalBuilder tauri.generate_context = Except.error e) :
    (mainOutcome args env).exitCode ≠ 0 ∧
    (mainOutcome args env).diagnostic =
      some ("error while running tauri application: " ++ e.debugRepr) := by
  rw [mainOutcome_eq, h, expect_error_msg]
  exact ⟨by simp [Outcome.exitCode], rfl⟩

/-- Witness for C4: at a concrete failing host environment, the exit status
is non-zero and the diagnostic names the fixed text and the error. -/
theorem main_failure_nonzero_exit_witness :
    (mainOutcome [] envErr).exitCode ≠ 0 ∧
    (mainOutcome [] envErr).diagnostic =
      some ("error while running tauri application: " ++ "boom") :=
  main_failure_nonzero_exit [] envErr ⟨"boom"⟩ rfl

/-- C5: the entry point parses no command-line arguments: two executions
that differ only in the argument vector perform the identical trace of
framework calls and produce the identical observable outcome. -/
theorem main_ignores_args (args1 args2 : List String) (env : tauri.HostEnv) :
    main args1 env = main args2 env := by
  exact rfl

/-- C6: in every execution the run call occurs exactly once, it is the last
framework call (the builder, consumed by it, is never used afterward), and
every plugin registration happens strictly before it. -/
theorem main_run_once_configure_before (args : List String) (env : tauri.HostEnv) :
    (mainTrace args env).countP Event.isRunInvoke = 1 ∧
    (mainTrace args env).getLast? =
      some (Event.runInvoke finalBuilder tauri.generate_context) ∧
    (mainTrace args env).dropLast.countP Event.isRunInvoke = 0 ∧
    (mainTrace args env).dropLast.countP Event.isPluginAttach =
      (mainTrace args env).countP Event.isPluginAttach := by
  exact ⟨rfl, rfl, rfl, rfl⟩

/-- C7: the routine performs no action before constructing the builder (the
first framework call is the default-builder construction) and, after the run
call (the last framework call), performs nothing further: the outcome is
either a normal exit with status 0, or, exactly when the host's run result
is an error, the fatal-diagnostic termination. -/
theorem main_frame_bounds (args : List String) (env : tauri.HostEnv) :
    (mainTrace args env).head? = some Event.builderDefault ∧
    (mainTrace args env).getLast? =
      some (Event.runInvoke finalBuilder tauri.generate_context) ∧
    (mainOutcome args env = Outcome.exited 0 ∨
      ∃ e, env finalBuilder tauri.generate_context = Except.error e ∧
        mainOutcome args env =
          Outcome.panicked ("error while running tauri application: " ++ e.debugRepr)) := by
  refine ⟨rfl, rfl, ?_⟩
  rw [mainOutcome_eq]
  cases h : env finalBuilder tauri.generate_context with
  | ok u => exact Or.inl rfl
  | error e => exact Or.inr ⟨e, rfl, expect_error_msg e⟩

/-- C8: a fatal diagnostic is emitted if and only if the run call returns an
error; when the host's run result is Ok, the routine emits no diagnostic,
returns normally from main, and the process exits with status 0. -/
theorem main_diagnostic_iff_run_error (args : List String) (env : tauri.HostEnv) :
    ((mainOutcome args env).diagnostic = none ↔
      env finalBuilder tauri.generate_context = Except.ok ()) ∧
    (env finalBuilder tauri.generate_context = Except.ok () →
      mainOutcome args env = Outcome.exited 0) := by
  rw [mainOutcome_eq]
  cases h : env finalBuilder tauri.generate_context with
  | ok u => exact ⟨by simp [expect, Outcome.diagnostic], fun _ => rfl⟩
  | error e =>
      exact ⟨by simp [expect, Outcome.diagnostic], fun hc => Except.noConfusion hc⟩

/-- Witness for C8: in a host environment whose run loop exits normally, the
routine emits no diagnostic and the process exits with status 0. -/
theorem main_diagnostic_iff_run_error_witness :
    (mainOutcome [] envOk).diagnostic = none ∧
    mainOutcome [] envOk = Outcome.exited 0 :=
  ⟨(main_diagnostic_iff_run_error [] envOk).1.mpr rfl,
   (main_diagnostic_iff_run_error [] envOk).2 rfl⟩

/-- C9: on every run-loop startup failure, the fatal diagnostic message is
exactly the fixed text "error while running tauri application" followed by
": " and the Debug rendering of the underlying framework error, whatever
that error is. -/
theorem main_diagnostic_message (args : List String) (env : tauri.HostEnv)
    (e : tauri.Error)
    (h : env finalBuilder tauri.generate_context = Except.error e) :
    mainOutcome args env =
      Outcome.panicked ("error while running tauri application: " ++ e.debugRepr) := by
  rw [mainOutcome_eq, h, expect_error_msg]

/-- Witness for C9: at a concrete failing host environment, the diagnostic
is the fixed text followed by the rendering of the error. -/
theorem main_diagnostic_message_witness :
    mainOutcome [] envErr =
      Outcome.panicked ("error while running tauri application: " ++ "boom") :=
  main_diagnostic_message [] envErr ⟨"boom"⟩ rfl

/-- C10: the pre-run operations are total: every execution reaches the run
invocation (the run event is in the trace regardless of the host), and any
panicked outcome originates from an error returned by the run call, so the
abort branch cannot be reached before the run call executes. -/
theorem main_prerun_total (args : List String) (env : tauri.HostEnv) :
    Event.runInvoke finalBuilder tauri.generate_context ∈ mainTrace args env ∧
    (∀ m, mainOutcome args env = Outcome.panicked m →
      ∃ e, env finalBuilder tauri.generate_context = Except.error e ∧
        m = "error while running tauri application: " ++ e.debugRepr) := by
  constructor
  · show Event.runInvoke finalBuilder tauri.generate_context ∈
      [Event.builderDefault,
       Event.pluginAttach (Plugin.log LogSettings.default),
       Event.contextGen,
       Event.runInvoke finalBuilder tauri.generate_context]
    simp
  · intro m hm
    rw [mainOutcome_eq] at hm
    cases h : env finalBuilder tauri.generate_context with
    | ok u => rw [h] at hm; simp [expect] at hm
    | error e =>
        rw [h, expect_error_msg] at hm
        injection hm with hm
        exact ⟨e, rfl, hm.symm⟩

/-- Witness for C10: at a concrete failing host environment, the panic
message is traced back to the error the run call returned. -/
theorem main_prerun_total_witness :
    ∃ e, envErr finalBuilder tauri.generate_context = Except.error e ∧
      ("error while running tauri application: " ++ "boom") =
        "error while running tauri application: " ++ e.debugRepr :=
  (main_prerun_total [] envErr).2 ("error while running tauri application: " ++ "boom") rfl

end Ledgerhound
